import Mathlib

/-!
Verification of the multi-type coverage analysis of
LSGI3315_GIS_Engineering (question3.py, core.py, consts.py).

The Python source is shallowly embedded: the combination enumeration of
itertools.combinations, the worker function process_combination, the
exception_handler decorator, the name-sanitization helper, the CSV row
parser, and the control flow of three_or_above_facilities / main are
translated into executable Lean definitions.  External arcpy primitives
(buffer, select, copy, intersect, merge, clip, dissolve, multipart split)
are treated as parameters: arbitrary functions that either succeed or
raise a Python-style exception, matching the Geometry Provider role they
play in the source.
-/

namespace GIS

/-- Shallow embedding of Python's itertools.combinations applied to a list:
all k-element sublists, emitted in the order itertools produces them
(lexicographic over input positions).  question3.py line 58 uses
combinations(FacilityTypes, 3). -/
def combinations {α : Type*} : Nat → List α → List (List α)
  | 0, _ => [[]]
  | _ + 1, [] => []
  | k + 1, x :: xs => ((combinations k xs).map fun c => x :: c) ++ combinations (k + 1) xs

/-- The Combination Scheduler of question3.py lines 54-58:
enumerate(combinations(cats, k)) pairs each combination with its creation
index. -/
def scheduleTasks {α : Type*} (k : Nat) (cats : List α) : List (Nat × List α) :=
  (combinations k cats).enum

/-- The configured category list, consts.py FacilityTypes. -/
def FacilityTypes : List String :=
  ["Badminton Courts",
   "Basketball Courts",
   "Country Parks",
   "Fitness Rooms",
   "Other Recreation & Sports Facilities",
   "Parks, Zoos And Gardens",
   "Sports Grounds",
   "Swimming Pools"]

/-- The concrete task list dispatched by question3.py lines 54-58. -/
def q3TaskList : List (Nat × List String) := scheduleTasks 3 FacilityTypes

theorem length_combinations {α : Type*} (k : Nat) (l : List α) :
    (combinations k l).length = l.length.choose k := by
  induction l generalizing k with
  | nil => cases k <;> simp [combinations]
  | cons x xs ih =>
    cases k with
    | zero => simp [combinations]
    | succ k => simp [combinations, ih, Nat.choose_succ_succ, Nat.add_comm]

theorem mem_combinations {α : Type*} (k : Nat) (l : List α) (c : List α) :
    c ∈ combinations k l ↔ (c.Sublist l ∧ c.length = k) := by
  induction l generalizing k c with
  | nil =>
    cases k with
    | zero => simp [combinations, List.sublist_nil, List.length_eq_zero, eq_comm]
    | succ k =>
      simp only [combinations, List.not_mem_nil, false_iff, not_and, List.sublist_nil]
      rintro rfl
      simp
  | cons x xs ih =>
    cases k with
    | zero =>
      simp only [combinations, List.mem_singleton, List.length_eq_zero]
      constructor
      · rintro rfl
        exact ⟨List.nil_sublist _, rfl⟩
      · rintro ⟨_, rfl⟩
        rfl
    | succ k =>
      simp only [combinations, List.mem_append, List.mem_map, ih, List.sublist_cons_iff]
      constructor
      · rintro (⟨a, ⟨hs, hl⟩, rfl⟩ | ⟨hs, hl⟩)
        · exact ⟨Or.inr ⟨a, rfl, hs⟩, by simp [hl]⟩
        · exact ⟨Or.inl hs, hl⟩
      · rintro ⟨hs | ⟨r, rfl, hr⟩, hl⟩
        · exact Or.inr ⟨hs, hl⟩
        · exact Or.inl ⟨r, ⟨hr, by simpa using hl⟩, rfl⟩

theorem nodup_combinations {α : Type*} (k : Nat) (l : List α) (h : l.Nodup) :
    (combinations k l).Nodup := by
  induction l generalizing k with
  | nil => cases k <;> simp [combinations]
  | cons x xs ih =>
    have hx : x ∉ xs := (List.nodup_cons.mp h).1
    have hxs : xs.Nodup := (List.nodup_cons.mp h).2
    cases k with
    | zero => simp [combinations]
    | succ k =>
      simp only [combinations]
      refine List.nodup_append.mpr ⟨?_, ih (k + 1) hxs, ?_⟩
      · exact (List.nodup_map_iff (fun a b hab => by injection hab)).mpr (ih k hxs)
      · intro c hc hc2
        obtain ⟨a, _, rfl⟩ := List.mem_map.mp hc
        have hsub := ((mem_combinations (k + 1) xs (x :: a)).mp hc2).1
        exact hx (hsub.subset (by simp))

theorem pairwise_lex_combinations {α : Type*} {r : α → α → Prop} (k : Nat) (l : List α)
    (h : l.Pairwise r) : (combinations k l).Pairwise (List.Lex r) := by
  induction l generalizing k with
  | nil => cases k <;> simp [combinations]
  | cons x xs ih =>
    have hr : ∀ y ∈ xs, r x y := (List.pairwise_cons.mp h).1
    have hxs : xs.Pairwise r := (List.pairwise_cons.mp h).2
    cases k with
    | zero => simp [combinations]
    | succ k =>
      simp only [combinations]
      refine List.pairwise_append.mpr ⟨?_, ih (k + 1) hxs, ?_⟩
      · exact List.pairwise_map.mpr ((ih k hxs).imp fun hab => List.Lex.cons hab)
      · rintro a ha b hb
        obtain ⟨a', _, rfl⟩ := List.mem_map.mp ha
        have hb' := (mem_combinations (k + 1) xs b).mp hb
        cases b with
        | nil => simp at hb'
        | cons y t =>
          exact List.Lex.rel (hr y (hb'.1.subset (by simp)))

/-- C1: for every category list of size N (no duplicates, listed in its input
order r) and threshold K with 1 <= K <= N, the scheduler of question3.py
lines 54-58 generates exactly C(N,K) tasks, each a distinct K-subset of
the categories with no duplicates and no omissions, enumerated in
lexicographic order over the input ordering, and the index paired with
each subset equals its position in the enumeration. -/
theorem scheduler_enumeration_correct {α : Type*} (l : List α) (k : Nat) (r : α → α → Prop)
    (hnd : l.Nodup) (hord : l.Pairwise r) (hk1 : 1 ≤ k) (hkN : k ≤ l.length) :
    (scheduleTasks k l).length = l.length.choose k ∧
    (∀ c ∈ combinations k l, c.length = k ∧ c.Nodup ∧ c.Sublist l) ∧
    (combinations k l).Nodup ∧
    (∀ c : List α, c.Sublist l → c.length = k → c ∈ combinations k l) ∧
    (combinations k l).Pairwise (List.Lex r) ∧
    (scheduleTasks k l).map Prod.fst = List.range (l.length.choose k) ∧
    (scheduleTasks k l).map Prod.snd = combinations k l := by
  refine ⟨?_, ?_, nodup_combinations k l hnd, ?_, pairwise_lex_combinations k l hord, ?_, ?_⟩
  · rw [scheduleTasks, List.enum_length, length_combinations]
  · intro c hc
    have h := (mem_combinations k l c).mp hc
    exact ⟨h.2, h.1.nodup hnd, h.1⟩
  · intro c hs hl
    exact (mem_combinations k l c).mpr ⟨hs, hl⟩
  · rw [scheduleTasks, List.enum_map_fst, length_combinations]
  · rw [scheduleTasks, List.enum_map_snd]

/-- Witness for C1 at a concrete input: the category list [0,1,2,3] with
K = 3 satisfies the hypotheses and hence the scheduler properties. -/
theorem scheduler_enumeration_correct_witness :
    (([0, 1, 2, 3] : List Nat).Nodup ∧ ([0, 1, 2, 3] : List Nat).Pairwise (· < ·) ∧
      1 ≤ 3 ∧ 3 ≤ ([0, 1, 2, 3] : List Nat).length) ∧
    ((scheduleTasks 3 [0, 1, 2, 3]).length = ([0, 1, 2, 3] : List Nat).length.choose 3 ∧
    (∀ c ∈ combinations 3 [0, 1, 2, 3], c.length = 3 ∧ c.Nodup ∧ c.Sublist [0, 1, 2, 3]) ∧
    (combinations 3 [0, 1, 2, 3]).Nodup ∧
    (∀ c : List Nat, c.Sublist [0, 1, 2, 3] → c.length = 3 → c ∈ combinations 3 [0, 1, 2, 3]) ∧
    (combinations 3 [0, 1, 2, 3]).Pairwise (List.Lex (· < ·)) ∧
    (scheduleTasks 3 [0, 1, 2, 3]).map Prod.fst = List.range (([0, 1, 2, 3] : List Nat).length.choose 3) ∧
    (scheduleTasks 3 [0, 1, 2, 3]).map Prod.snd = combinations 3 [0, 1, 2, 3]) :=
  ⟨⟨by decide, by decide, by decide, by decide⟩,
    scheduler_enumeration_correct [0, 1, 2, 3] 3 (· < ·)
      (by decide) (by decide) (by decide) (by decide)⟩

/-- Decimal digit character: 0 maps to the character 0, etc. -/
def digitChar (d : Nat) : Char := Char.ofNat (48 + d)

/-- Decimal representation of a natural number, most significant digit
first, as produced by Python str()/f-string formatting of a nonnegative
int. -/
def decRepr (n : Nat) : List Char :=
  if n < 10 then [digitChar n]
  else decRepr (n / 10) ++ [digitChar (n % 10)]
decreasing_by exact Nat.div_lt_self (by omega) (by omega)

theorem decRepr_ne_nil (n : Nat) : decRepr n ≠ [] := by
  rw [decRepr]
  split <;> simp

theorem digitChar_inj : ∀ a < 10, ∀ b < 10, digitChar a = digitChar b → a = b := by decide

theorem decRepr_small {n : Nat} (h : n < 10) : decRepr n = [digitChar n] := by
  rw [decRepr, if_pos h]

theorem decRepr_large {n : Nat} (h : ¬n < 10) :
    decRepr n = decRepr (n / 10) ++ [digitChar (n % 10)] := by
  rw [decRepr, if_neg h]

theorem decRepr_inj (m : Nat) : ∀ n, decRepr m = decRepr n → m = n := by
  induction m using Nat.strong_induction_on with
  | _ m ih =>
    intro n h
    by_cases hm : m < 10 <;> by_cases hn : n < 10
    · rw [decRepr_small hm, decRepr_small hn] at h
      exact digitChar_inj m hm n hn (by simpa using h)
    · rw [decRepr_small hm, decRepr_large hn] at h
      have hlen := congrArg List.length h
      simp only [List.length_append, List.length_singleton] at hlen
      have hz : (decRepr (n / 10)).length = 0 := by omega
      exact absurd (List.length_eq_zero.mp hz) (decRepr_ne_nil (n / 10))
    · rw [decRepr_large hm, decRepr_small hn] at h
      have hlen := congrArg List.length h
      simp only [List.length_append, List.length_singleton] at hlen
      have hz : (decRepr (m / 10)).length = 0 := by omega
      exact absurd (List.length_eq_zero.mp hz) (decRepr_ne_nil (m / 10))
    · rw [decRepr_large hm, decRepr_large hn] at h
      obtain ⟨h1, h2⟩ := List.append_inj' h (by simp)
      have hdiv : m / 10 = n / 10 :=
        ih (m / 10) (Nat.div_lt_self (by omega) (by omega)) (n / 10) h1
      have hmod : m % 10 = n % 10 :=
        digitChar_inj (m % 10) (Nat.mod_lt m (by omega)) (n % 10) (Nat.mod_lt n (by omega))
          (by simpa using h2)
      omega

/-- Per-combination output artifact name, question3.py line 88:
"./shape/FeatureCombination_{index}.shp". -/
def combOutName (i : Nat) : String :=
  "./shape/FeatureCombination_" ++ (decRepr i).asString ++ ".shp"

/-- Replace every occurrence of one character by a replacement string:
Python str.replace with a single-character pattern. -/
def replaceAll (c : Char) (r : List Char) (s : List Char) : List Char :=
  s.flatMap fun ch => if ch = c then r else [ch]

/-- core.py replace_special_chars: spaces to underscores, ampersands to
"and", commas removed, applied in that order. -/
def replace_special_chars (name : String) : String :=
  String.mk (replaceAll ',' []
    (replaceAll '&' ['a', 'n', 'd']
      (replaceAll ' ' ['_'] name.data)))

/-- Sanitized per-category layer name, question3.py line 31:
"{replace_special_chars(facility_type)}_Layer". -/
def layerName (t : String) : String := replace_special_chars t ++ "_Layer"

/-- Per-category shapefile path, question3.py lines 40 and 84:
"./shape/{layer name}.shp". -/
def layerPath (t : String) : String := "./shape/" ++ layerName t ++ ".shp"

theorem combOutName_inj (i j : Nat) (h : combOutName i = combOutName j) : i = j := by
  have hd := congrArg String.data h
  simp only [combOutName, String.data_append, List.append_assoc] at hd
  have h1 := List.append_cancel_left hd
  have h2 := List.append_cancel_right h1
  exact decRepr_inj i j h2

/-- C8: all artifact names written during the parallel phase are pairwise
distinct: distinct task indices give distinct per-combination output
names (question3.py line 88), and the sanitized layer names of the
configured category list (consts.py FacilityTypes through
replace_special_chars) are pairwise distinct, so no two writers target
the same output location. -/
theorem artifact_names_distinct :
    (∀ i j : Nat, i ≠ j → combOutName i ≠ combOutName j) ∧
    (FacilityTypes.map layerName).Nodup ∧
    (FacilityTypes.map layerPath).Nodup := by
  refine ⟨fun i j hne hEq => hne (combOutName_inj i j hEq), by decide, by decide⟩

/-- Witness for C8 at concrete indices 0 and 1. -/
theorem artifact_names_distinct_witness : combOutName 0 ≠ combOutName 1 :=
  artifact_names_distinct.1 0 1 (by decide)

/-- Python exception values, distinguished the way the handlers in the
source distinguish them: arcpy.ExecuteError versus every other Exception
kind raised by the scripts or the Geometry Provider. -/
inductive PyExc
  | executeError (msg : String)
  | assertionError (msg : String)
  | fileNotFound (msg : String)
  | valueError (msg : String)
  | geomError (msg : String)
  deriving DecidableEq

/-- The message text used when a Python exception value is printed. -/
def PyExc.message : PyExc → String
  | .executeError m => m
  | .assertionError m => m
  | .fileNotFound m => m
  | .valueError m => m
  | .geomError m => m

/-- core.py exception_handler: wraps f; on arcpy.ExecuteError it prints
"Error while running {name}(): {messages}" and re-raises, on any other
Exception it prints "Unexpected error while running {name}: {e}" and
re-raises, and otherwise it returns the inner function's value.  A
computation is modelled as a pair of the lines it prints and its
Except outcome. -/
def exception_handler {α β : Type*} (fname : String)
    (f : α → List String × Except PyExc β) : α → List String × Except PyExc β :=
  fun a =>
    match f a with
    | (out, Except.ok v) => (out, Except.ok v)
    | (out, Except.error (PyExc.executeError m)) =>
      (out ++ ["Error while running " ++ fname ++ "(): " ++ m],
        Except.error (PyExc.executeError m))
    | (out, Except.error e) =>
      (out ++ ["Unexpected error while running " ++ fname ++ ": " ++ e.message],
        Except.error e)

/-- C9: the exception_handler wrapper of core.py lines 67-84 is
transparent: when the wrapped function returns a value the wrapper
returns exactly that value with no extra output, and when the wrapped
function raises the wrapper re-raises that same exception after
appending exactly one log line — it never suppresses an error or
converts a failure into a normal return. -/
theorem exception_handler_transparent {α β : Type*} (fname : String)
    (f : α → List String × Except PyExc β) (a : α) :
    (∀ v : β, (f a).2 = Except.ok v → exception_handler fname f a = ((f a).1, Except.ok v)) ∧
    (∀ e : PyExc, (f a).2 = Except.error e →
      (exception_handler fname f a).2 = Except.error e ∧
      ∃ msg : String, (exception_handler fname f a).1 = (f a).1 ++ [msg]) := by
  rcases hfa : f a with ⟨out, r⟩
  constructor
  · intro v hv
    simp only [hfa] at hv ⊢
    subst hv
    simp [exception_handler, hfa]
  · intro e he
    simp only [hfa] at he
    subst he
    cases e <;> simp [exception_handler, hfa]

/-- Witness for C9 at a concrete wrapped function: a function returning 7
passes through unchanged, and a function raising an ExecuteError has the
same error re-raised. -/
theorem exception_handler_transparent_witness :
    exception_handler "main" (fun _ : Nat => (([] : List String), Except.ok 7)) 0
      = (([] : List String), Except.ok 7) ∧
    (exception_handler "main"
      (fun _ : Nat => (([] : List String),
        (Except.error (PyExc.executeError "boom") : Except PyExc Nat))) 0).2
      = Except.error (PyExc.executeError "boom") :=
  ⟨(exception_handler_transparent "main" _ 0).1 7 rfl,
   ((exception_handler_transparent "main" _ 0).2 (PyExc.executeError "boom") rfl).1⟩

/-- question3.py process_combination (lines 81-94): assert that each
member category's layer shapefile exists (an AssertionError propagates,
it is outside the try block), then run Intersect_analysis into the
index-keyed output name; on any Exception print the error and a warning
and fall through to returning the same output name as on success.  The
model returns the printed lines and the outcome transmitted to the
parent process: an uncaught exception or the returned string. -/
def process_combination (fileExists : String → Bool)
    (intersect : List String → String → Except PyExc Unit)
    (index : Nat) (fac_type_comb : List String) :
    List String × Except PyExc String :=
  match fac_type_comb.find? (fun t => !fileExists (layerPath t)) with
  | some t => ([], Except.error (PyExc.assertionError (layerPath t)))
  | none =>
    let out_name := combOutName index
    match intersect (fac_type_comb.map layerPath) out_name with
    | Except.ok _ => ([], Except.ok out_name)
    | Except.error e =>
      ([e.message, "Warning: " ++ out_name ++ " is ignored"], Except.ok out_name)

/-- A provider whose intersection always raises a geometry error. -/
def intersectAlwaysFail : List String → String → Except PyExc Unit :=
  fun _ _ => Except.error (PyExc.geomError "degenerate input")

/-- A provider whose intersection always succeeds. -/
def intersectAlwaysOk : List String → String → Except PyExc Unit :=
  fun _ _ => Except.ok ()

/-- A filesystem on which every layer shapefile exists. -/
def allFilesExist : String → Bool := fun _ => true

/-- C3 counterexample: the value a worker sends back when the provider
raises is identical to the value it sends back on success (the bare
output name, question3.py line 94) — there is no failure-tagged result
distinguishable from a success result, contrary to the claim. -/
theorem worker_failure_not_tagged :
    (process_combination allFilesExist intersectAlwaysFail 0
        ["Badminton Courts", "Basketball Courts", "Country Parks"]).2
      = (process_combination allFilesExist intersectAlwaysOk 0
        ["Badminton Courts", "Basketball Courts", "Country Parks"]).2 := by
  rfl

/-- C3 as amended: when every member layer file exists and the provider
raises during the intersection, the worker catches the exception, prints
the error followed by a warning naming the index-keyed output (but not
the category combination), and returns the same output name as on
success; the exception never propagates (the transmitted outcome is
always ok), so the remaining combinations of the batch still run. -/
theorem worker_catches_provider_errors (fileExists : String → Bool)
    (intersect : List String → String → Except PyExc Unit)
    (i : Nat) (comb : List String) (e : PyExc)
    (hex : ∀ t ∈ comb, fileExists (layerPath t) = true)
    (herr : intersect (comb.map layerPath) (combOutName i) = Except.error e) :
    process_combination fileExists intersect i comb
      = ([e.message, "Warning: " ++ combOutName i ++ " is ignored"],
          Except.ok (combOutName i)) ∧
    (∀ (j : Nat) (comb' : List String) (its' : List String → String → Except PyExc Unit),
      (∀ t ∈ comb', fileExists (layerPath t) = true) →
      ∃ outLines : List String,
        process_combination fileExists its' j comb'
          = (outLines, Except.ok (combOutName j))) := by
  have hfind : ∀ (c : List String), (∀ t ∈ c, fileExists (layerPath t) = true) →
      c.find? (fun t => !fileExists (layerPath t)) = none := by
    intro c hc
    apply List.find?_eq_none.mpr
    intro t ht
    simp [hc t ht]
  constructor
  · simp only [process_combination, hfind comb hex, herr]
  · intro j comb' its' hex'
    simp only [process_combination, hfind comb' hex']
    cases its' (comb'.map layerPath) (combOutName j) with
    | ok _ => exact ⟨[], rfl⟩
    | error e' => exact ⟨_, rfl⟩

/-- Witness for the amended C3 at a concrete failing provider. -/
theorem worker_catches_provider_errors_witness :
    process_combination allFilesExist intersectAlwaysFail 0
        ["Badminton Courts", "Basketball Courts", "Country Parks"]
      = (["degenerate input",
          "Warning: " ++ combOutName 0 ++ " is ignored"],
          Except.ok (combOutName 0)) :=
  (worker_catches_provider_errors allFilesExist intersectAlwaysFail 0
    ["Badminton Courts", "Basketball Courts", "Country Parks"]
    (PyExc.geomError "degenerate input")
    (fun t _ => rfl) rfl).1

/-- The multiprocessing pool of question3.py lines 54-59: tasks are
dispatched in creation order; a schedule lists slot indices in the order
the underlying parallel workers complete; each completion stores the
task's (deterministic) result into its own slot.  The parent then reads
the slots in creation order via res.get(). -/
def collectResults {τ ρ : Type*} (f : τ → ρ) (tasks : List τ) (order : List Nat) :
    List (Option ρ) :=
  order.foldl
    (fun acc i =>
      match tasks[i]? with
      | some t => acc.set i (some (f t))
      | none => acc)
    (List.replicate tasks.length none)

theorem collectResults_getElem {τ ρ : Type*} (f : τ → ρ) (tasks : List τ) :
    ∀ (order : List Nat) (acc : List (Option ρ)), acc.length = tasks.length →
      ∀ (j : Nat) (hj : j < tasks.length),
        (order.foldl
          (fun acc i =>
            match tasks[i]? with
            | some t => acc.set i (some (f t))
            | none => acc)
          acc)[j]? =
          if j ∈ order then some (some (f (tasks.get ⟨j, hj⟩))) else acc[j]? := by
  intro order
  induction order with
  | nil => intro acc hlen j hj; simp
  | cons i rest ih =>
    intro acc hlen j hj
    simp only [List.foldl_cons]
    rcases hti : tasks[i]? with _ | t
    · rw [ih acc hlen j hj]
      have hi : ¬i < tasks.length := by
        intro hc
        exact absurd hti (by simp [List.getElem?_eq_getElem hc])
      have hij : j ≠ i := fun hEq => hi (hEq ▸ hj)
      by_cases hmem : j ∈ rest <;> simp [hmem, hij, List.mem_cons]
    · rw [ih _ (by simp [hlen]) j hj]
      by_cases hmem : j ∈ rest
      · simp [hmem, List.mem_cons]
      · by_cases hij : j = i
        · subst hij
          have ht : t = tasks.get ⟨j, hj⟩ := by
            rw [List.getElem?_eq_getElem hj] at hti
            exact (Option.some_inj.mp hti).symm
          simp [List.mem_cons, List.getElem?_set, hlen, hj, ht]
        · simp only [List.mem_cons, hij, hmem, or_self, if_neg, if_false]
          rw [List.getElem?_set]
          simp [Ne.symm hij]

/-- Once every task index appears in the completion schedule, the
collected list is exactly the per-task results in task-creation order. -/
theorem collectResults_complete {τ ρ : Type*} (f : τ → ρ) (tasks : List τ)
    (order : List Nat) (hcov : ∀ i, i < tasks.length → i ∈ order) :
    collectResults f tasks order = tasks.map (fun t => some (f t)) := by
  apply List.ext_getElem?
  intro j
  by_cases hj : j < tasks.length
  · rw [collectResults, collectResults_getElem f tasks order _ (by simp) j hj]
    simp [hcov j hj, List.getElem?_eq_getElem hj]
  · have h1 : (collectResults f tasks order).length = tasks.length := by
      rw [collectResults]
      have : ∀ (ord : List Nat) (acc : List (Option ρ)),
          (ord.foldl
            (fun acc i =>
              match tasks[i]? with
              | some t => acc.set i (some (f t))
              | none => acc)
            acc).length = acc.length := by
        intro ord
        induction ord with
        | nil => intro acc; rfl
        | cons i rest ih =>
          intro acc
          simp only [List.foldl_cons]
          rcases tasks[i]? with _ | t
          · exact ih acc
          · rw [ih]; simp
      rw [this]; simp
    rw [List.getElem?_eq_none (by omega), List.getElem?_eq_none (by simp; omega)]

/-- The Geometry Provider primitives used by the aggregation block of
question3.py (Merge, Clip_analysis, Dissolve, MultipartToSinglepart),
over an abstract polygon-collection type P.  mergeAll receives the
stored contents of each collected name; a name written by no worker
(its combination failed) has no contents.  clipCall models the
Clip_analysis invocation at line 63, which omits the tool's required
output feature class: it is handed the merged dataset and the district
boundary but produces no dataset that any later step could read (under
real arcpy such a call raises ERROR 000735), so only its success or
failure is observable. -/
structure GeoPrims (P : Type) where
  mergeAll : List (Option P) → Except PyExc P
  clipCall : P → P → Except PyExc Unit
  dissolve : P → Except PyExc P
  splitMultipart : P → Except PyExc P

/-- The aggregation dataflow of question3.py lines 62-76: Merge is applied
to the contents of every collected output name (no filtering of failed
combinations, no early empty return); Clip_analysis is then invoked on
the merged dataset and the boundary without an output feature class, so
it contributes no data and can only succeed or raise; Dissolve (line 70)
and MultipartToSinglepart (line 74) then read the untouched Merge
output. -/
def aggregate_run {P : Type} (g : GeoPrims P) (store : String → Option P)
    (names : List String) (boundary : P) : Except PyExc P :=
  match g.mergeAll (names.map store) with
  | Except.error e => Except.error e
  | Except.ok m =>
    match g.clipCall m boundary with
    | Except.error e => Except.error e
    | Except.ok _ =>
      match g.dissolve m with
      | Except.error e => Except.error e
      | Except.ok d => g.splitMultipart d

/-- A merge primitive behaving like arcpy on a missing dataset: if every
named input is absent it reports ERROR 000732, otherwise it concatenates
the present polygon lists. -/
def missingFileGeo : GeoPrims (List Nat) where
  mergeAll := fun l =>
    if l.all Option.isNone
    then Except.error (PyExc.executeError "ERROR 000732: Dataset does not exist")
    else Except.ok (l.flatMap fun o => o.getD [])
  clipCall := fun _ _ => Except.ok ()
  dissolve := fun m => Except.ok m
  splitMultipart := fun m => Except.ok m

/-- C2 counterexample: with a single failure-tagged collected result
(its output name was never written) and zero successes, the claim
requires the Aggregator to discard the failure and return an empty
region set, but the code passes the unwritten name straight to Merge and
returns no empty result. -/
theorem aggregator_no_failure_discard :
    aggregate_run missingFileGeo (fun _ => none) [combOutName 0] ([] : List Nat)
      ≠ Except.ok [] := by
  simp [aggregate_run, missingFileGeo]

/-- C2 as amended: the Aggregator merges the contents of every collected
output name — including names of failed combinations, with no discard
step and no empty return on zero successes; it then issues the
Clip_analysis call on the merged dataset and the boundary with the
tool's required output feature class omitted, so no clipped dataset
exists and the call can only succeed vacuously or raise (aborting
aggregation before dissolve, as real arcpy does with ERROR 000735);
Dissolve and MultipartToSinglepart are then applied to the unchanged
Merge output — the boundary never restricts the data.  Whenever the
provider's dissolve output is pairwise interior-disjoint and its split
output consists of single connected parts, a successfully returned
region set is pairwise disjoint and single-part. -/
theorem aggregator_order_and_postconditions {P : Type} (g : GeoPrims P)
    (Disjo : P → Prop) (SinglePart : P → Prop)
    (hdis : ∀ x y, g.dissolve x = Except.ok y → Disjo y)
    (hsplit : ∀ x y, g.splitMultipart x = Except.ok y → SinglePart y ∧ (Disjo x → Disjo y))
    (store : String → Option P) (names : List String) (boundary : P) (out : P)
    (h : aggregate_run g store names boundary = Except.ok out) :
    Disjo out ∧ SinglePart out ∧
    (∃ m d, g.mergeAll (names.map store) = Except.ok m ∧
      g.clipCall m boundary = Except.ok () ∧
      g.dissolve m = Except.ok d ∧
      g.splitMultipart d = Except.ok out) ∧
    (∀ (m : P) (e : PyExc), g.mergeAll (names.map store) = Except.ok m →
      g.clipCall m boundary = Except.error e →
      aggregate_run g store names boundary = Except.error e) := by
  have hchain : ∃ m d, g.mergeAll (names.map store) = Except.ok m ∧
      g.clipCall m boundary = Except.ok () ∧
      g.dissolve m = Except.ok d ∧ g.splitMultipart d = Except.ok out := by
    rw [aggregate_run] at h
    rcases hm : g.mergeAll (names.map store) with e | m <;> simp [hm] at h
    rcases hc : g.clipCall m boundary with e | u <;> simp [hc] at h
    rcases hd : g.dissolve m with e | d <;> simp [hd] at h
    cases u
    exact ⟨m, d, rfl, hc, hd, h⟩
  obtain ⟨m, d, hm, hc, hd, hout⟩ := hchain
  obtain ⟨hsp, hpres⟩ := hsplit d out hout
  refine ⟨hpres (hdis m d hd), hsp, ⟨m, d, hm, hc, hd, hout⟩, ?_⟩
  intro m2 e hm2 hc2
  rw [aggregate_run]
  simp only [hm2, hc2]

/-- A trivial all-success provider over singleton region lists, used to
witness the amended aggregation theorem. -/
def trivialGeo : GeoPrims (List Nat) where
  mergeAll := fun l => Except.ok (l.flatMap fun o => o.getD [])
  clipCall := fun _ _ => Except.ok ()
  dissolve := fun _ => Except.ok [1]
  splitMultipart := fun _ => Except.ok [2]

/-- Witness for the amended C2 on the trivial provider: the pipeline
output is the split of the dissolve of the merge output and satisfies
the dissolve/split postconditions, and a raising clip call would abort
the aggregation. -/
theorem aggregator_order_and_postconditions_witness :
    (fun p => p = [1] ∨ p = [2] : List Nat → Prop) [2] ∧
    (fun p => p = [2] : List Nat → Prop) [2] ∧
    (∃ m d, trivialGeo.mergeAll ([combOutName 0].map (fun _ => some [5])) = Except.ok m ∧
      trivialGeo.clipCall m [9] = Except.ok () ∧
      trivialGeo.dissolve m = Except.ok d ∧
      trivialGeo.splitMultipart d = Except.ok [2]) ∧
    (∀ (m : List Nat) (e : PyExc),
      trivialGeo.mergeAll ([combOutName 0].map (fun _ => some [5])) = Except.ok m →
      trivialGeo.clipCall m [9] = Except.error e →
      aggregate_run trivialGeo (fun _ => some [5]) [combOutName 0] [9]
        = Except.error e) :=
  aggregator_order_and_postconditions trivialGeo
    (fun p => p = [1] ∨ p = [2]) (fun p => p = [2])
    (fun x y hy => Or.inl (Option.some_inj.mp (congrArg Except.toOption hy)).symm)
    (fun x y hy => ⟨(Option.some_inj.mp (congrArg Except.toOption hy)).symm, fun _ =>
      Or.inr (Option.some_inj.mp (congrArg Except.toOption hy)).symm⟩)
    (fun _ => some [5]) [combOutName 0] [9] [2] rfl

/-- The worker function handed to pool.apply_async for a (index,
combination) task, question3.py lines 55-56; only the transmitted
outcome reaches the parent. -/
def workerFun (fileExists : String → Bool)
    (intersect : List String → String → Except PyExc Unit) :
    Nat × List String → Except PyExc String :=
  fun task => (process_combination fileExists intersect task.1 task.2).2

/-- The parallel block plus aggregation of question3.py lines 54-76 as a
function of the worker-completion schedule: collect all results in
task-creation order, re-raise the first stored exception (res.get), and
aggregate the returned names. -/
def pipelineResult {P : Type} (g : GeoPrims P) (store : String → Option P)
    (fileExists : String → Bool)
    (intersect : List String → String → Except PyExc Unit)
    (boundary : P) (order : List Nat) : Except PyExc P :=
  let collected := collectResults (workerFun fileExists intersect) q3TaskList order
  match collected.mapM id with
  | none => Except.error (PyExc.valueError "schedule incomplete")
  | some rs =>
    match rs.mapM id with
    | Except.error e => Except.error e
    | Except.ok names => aggregate_run g store names boundary

/-- C5: once all tasks are awaited the result collection is aligned to
task-creation order regardless of the completion order of the parallel
workers, and two runs of the full pipeline on identical inputs produce
identical final region sets whatever the two completion schedules
were. -/
theorem results_ordered_and_deterministic {P : Type} (g : GeoPrims P)
    (store : String → Option P) (fileExists : String → Bool)
    (intersect : List String → String → Except PyExc Unit) (boundary : P)
    (order₁ order₂ : List Nat)
    (h₁ : ∀ i, i < q3TaskList.length → i ∈ order₁)
    (h₂ : ∀ i, i < q3TaskList.length → i ∈ order₂) :
    collectResults (workerFun fileExists intersect) q3TaskList order₁
      = q3TaskList.map (fun task => some (workerFun fileExists intersect task)) ∧
    pipelineResult g store fileExists intersect boundary order₁
      = pipelineResult g store fileExists intersect boundary order₂ := by
  refine ⟨collectResults_complete _ _ _ h₁, ?_⟩
  rw [pipelineResult, pipelineResult,
    collectResults_complete _ _ _ h₁, collectResults_complete _ _ _ h₂]

/-- Witness for C5: the complete schedule 0..55 (and its reverse) cover
all 56 task indices, so the collected results align with creation order
and the two runs agree. -/
theorem results_ordered_and_deterministic_witness :
    ((∀ i, i < q3TaskList.length → i ∈ List.range 56) ∧
      (∀ i, i < q3TaskList.length → i ∈ (List.range 56).reverse)) ∧
    (collectResults (workerFun allFilesExist intersectAlwaysOk) q3TaskList (List.range 56)
      = q3TaskList.map (fun task => some (workerFun allFilesExist intersectAlwaysOk task)) ∧
    pipelineResult trivialGeo (fun _ => none) allFilesExist intersectAlwaysOk [9] (List.range 56)
      = pipelineResult trivialGeo (fun _ => none) allFilesExist intersectAlwaysOk [9]
          ((List.range 56).reverse)) :=
  ⟨⟨by decide, by decide⟩,
    results_ordered_and_deterministic trivialGeo (fun _ => none) allFilesExist
      intersectAlwaysOk [9] (List.range 56) ((List.range 56).reverse)
      (by decide) (by decide)⟩

/-- Observable operations of three_or_above_facilities, in source order:
Buffer_analysis, per-category layer creation, task dispatch, result
collection, Merge, Clip_analysis, shutil.rmtree of ./shape, Dissolve,
MultipartToSinglepart. -/
inductive Op
  | bufferOp (radius : Rat)
  | makeLayerOp (t : String)
  | dispatchOp (i : Nat) (comb : List String)
  | collectOp
  | mergeOp
  | clipOp
  | rmtreeOp
  | dissolveOp
  | splitOp
  deriving DecidableEq

/-- Scratch-state summary: whether the ./shape temporary artifacts are
present and whether the final region set has been written. -/
structure FS where
  shapeDir : Bool
  final : Bool
  deriving DecidableEq

/-- Outcome of one run: the operations attempted in order, the final
scratch state, and the overall result (ok or the first uncaught
exception, which exception_handler re-raises). -/
structure RunOut where
  trace : List Op
  fs : FS
  result : Except PyExc Unit

/-- Sequential execution of a step list: each step is an operation label,
its effect on the scratch state, and its outcome; the first failing step
aborts the remainder (its effect is not applied). -/
def runSteps : List Op × FS → List (Op × (FS → FS) × Except PyExc Unit) →
    (List Op × FS) × Except PyExc Unit
  | st, [] => (st, Except.ok ())
  | st, s :: rest =>
    match s.2.2 with
    | Except.error e => ((st.1 ++ [s.1], st.2), Except.error e)
    | Except.ok _ => runSteps (st.1 ++ [s.1], s.2.1 st.2) rest

/-- The external Geometry Provider calls made by question3.py, each
either succeeding or raising. -/
structure Provider where
  buffer : Rat → Except PyExc Unit
  makeLayer : String → Except PyExc Unit
  intersect : List String → String → Except PyExc Unit
  mergeLayers : List String → Except PyExc Unit
  clipRun : Except PyExc Unit
  dissolveRun : Except PyExc Unit
  splitRun : Except PyExc Unit

/-- Outcome of the res.get() loop of line 59: the first stored worker
exception re-raises in the parent; otherwise the returned names. -/
def collectOutcome (p : Provider) : Except PyExc (List String) :=
  (q3TaskList.map (workerFun (fun _ => true) p.intersect)).mapM id

/-- The step sequence of three_or_above_facilities (question3.py lines
44-78): buffer, per-category layers (written into ./shape), dispatch of
every combination task, collection, merge, clip, rmtree of ./shape,
dissolve, multipart split. -/
def q3Steps (p : Provider) (radius : Rat) :
    List (Op × (FS → FS) × Except PyExc Unit) :=
  [(Op.bufferOp radius, id, p.buffer radius)]
  ++ FacilityTypes.map (fun t =>
      (Op.makeLayerOp t, fun fs => { fs with shapeDir := true }, p.makeLayer t))
  ++ q3TaskList.map (fun task =>
      (Op.dispatchOp task.1 task.2, id, Except.ok ()))
  ++ [(Op.collectOp, id, (collectOutcome p).map fun _ => ())]
  ++ [(Op.mergeOp, fun fs => { fs with final := true },
        p.mergeLayers (q3TaskList.map fun task => combOutName task.1)),
      (Op.clipOp, id, p.clipRun),
      (Op.rmtreeOp, fun fs => { fs with shapeDir := false }, Except.ok ()),
      (Op.dissolveOp, id, p.dissolveRun),
      (Op.splitOp, id, p.splitRun)]

/-- Scratch state at entry: no temp artifacts, no final output. -/
def initFS : FS := { shapeDir := false, final := false }

/-- The whole of three_or_above_facilities as one run. -/
def runQ3 (p : Provider) (radius : Rat) : RunOut :=
  { trace := (runSteps ([], initFS) (q3Steps p radius)).1.1,
    fs := (runSteps ([], initFS) (q3Steps p radius)).1.2,
    result := (runSteps ([], initFS) (q3Steps p radius)).2 }

/-- shutil.rmtree (question3.py line 66): removes the tree; raises
FileNotFoundError when the path is already absent.  Returns the
directory's existence after the call. -/
def rmtree (dirExists : Bool) : Except PyExc Bool :=
  if dirExists then Except.ok false
  else Except.error (PyExc.fileNotFound "./shape/")

theorem foldl_const {α β : Type*} (l : List α) (b : β) :
    l.foldl (fun a _ => a) b = b := by
  induction l with
  | nil => rfl
  | cons x xs ih => exact ih

theorem runSteps_ok_fs (l : List (Op × (FS → FS) × Except PyExc Unit)) :
    ∀ st, (runSteps st l).2 = Except.ok () →
      (runSteps st l).1.2 = l.foldl (fun fs s => s.2.1 fs) st.2 := by
  induction l with
  | nil => intro st _; rfl
  | cons s rest ih =>
    intro st h
    rcases hr : s.2.2 with e | u
    · rw [runSteps] at h
      simp only [hr] at h
      exact absurd h (by simp)
    · rw [runSteps] at h ⊢
      simp only [hr] at h ⊢
      rw [List.foldl_cons]
      exact ih _ h

theorem runSteps_trace_grows (l : List (Op × (FS → FS) × Except PyExc Unit)) :
    ∀ st, ∃ tl, (runSteps st l).1.1 = st.1 ++ tl := by
  induction l with
  | nil => intro st; exact ⟨[], by simp [runSteps]⟩
  | cons s rest ih =>
    intro st
    rcases hr : s.2.2 with e | u
    · refine ⟨[s.1], ?_⟩
      rw [runSteps]
      simp [hr]
    · obtain ⟨tl, htl⟩ := ih (st.1 ++ [s.1], s.2.1 st.2)
      refine ⟨[s.1] ++ tl, ?_⟩
      rw [runSteps]
      simp [hr, htl]

/-- A provider on which every Geometry Provider call succeeds. -/
def allOkProvider : Provider where
  buffer := fun _ => Except.ok ()
  makeLayer := fun _ => Except.ok ()
  intersect := fun _ _ => Except.ok ()
  mergeLayers := fun _ => Except.ok ()
  clipRun := Except.ok ()
  dissolveRun := Except.ok ()
  splitRun := Except.ok ()

/-- A provider whose Merge call raises an ExecuteError. -/
def failingMergeProvider : Provider :=
  { allOkProvider with
    mergeLayers := fun _ => Except.error (PyExc.executeError "merge failed") }

theorem runSteps_cons_trace (st : List Op × FS) (s : Op × (FS → FS) × Except PyExc Unit)
    (rest : List (Op × (FS → FS) × Except PyExc Unit)) :
    ∃ tl, (runSteps st (s :: rest)).1.1 = st.1 ++ s.1 :: tl := by
  rcases hr : s.2.2 with e | u
  · refine ⟨[], ?_⟩
    rw [runSteps]
    simp [hr]
  · obtain ⟨tl, htl⟩ := runSteps_trace_grows rest (st.1 ++ [s.1], s.2.1 st.2)
    refine ⟨tl, ?_⟩
    rw [runSteps]
    simp [hr, htl]

/-- The very first operation of every run of three_or_above_facilities is
the Buffer_analysis call with the given radius, whatever that radius
is. -/
theorem runQ3_trace_head (p : Provider) (radius : Rat) :
    (runQ3 p radius).trace.head? = some (Op.bufferOp radius) := by
  obtain ⟨tl, htl⟩ := runSteps_cons_trace ([], initFS)
    (Op.bufferOp radius, id, p.buffer radius) (q3Steps p radius).tail
  have hres : (runQ3 p radius).trace = Op.bufferOp radius :: tl := htl
  rw [hres]
  rfl

theorem q3Steps_foldl_fs (p : Provider) (radius : Rat) :
    (q3Steps p radius).foldl (fun fs s => s.2.1 fs) initFS
      = { shapeDir := false, final := true } := by
  simp only [q3Steps, List.foldl_append, List.foldl_map, List.foldl_cons, List.foldl_nil,
    foldl_const, id_eq, FacilityTypes, initFS]

/-- C6 counterexample: on the exit path where Merge fails, the ./shape
temporary artifacts are NOT removed (rmtree on line 66 is only reached
after a successful merge and clip), and cleanup is not idempotent:
rmtree on the already-absent directory raises FileNotFoundError. -/
theorem cleanup_missing_on_failure_path :
    (runQ3 failingMergeProvider 500).fs.shapeDir = true ∧
    (runQ3 failingMergeProvider 500).result
      = Except.error (PyExc.executeError "merge failed") ∧
    rmtree false = Except.error (PyExc.fileNotFound "./shape/") :=
  ⟨rfl, rfl, rfl⟩

/-- C6 as amended: the temporary ./shape artifacts are removed only on
runs that reach the rmtree step, i.e. when buffering, layer creation,
collection, merge and clip all succeed; on such a successful run the
temporary artifacts are gone while the final region set survives.  An
earlier failure skips cleanup entirely, and rmtree of an absent
directory raises, so cleanup is not idempotent. -/
theorem cleanup_only_on_success (p : Provider) (radius : Rat)
    (h : (runQ3 p radius).result = Except.ok ()) :
    (runQ3 p radius).fs.shapeDir = false ∧ (runQ3 p radius).fs.final = true := by
  have hfs : (runQ3 p radius).fs
      = (q3Steps p radius).foldl (fun fs s => s.2.1 fs) initFS :=
    runSteps_ok_fs (q3Steps p radius) ([], initFS) h
  rw [hfs, q3Steps_foldl_fs]
  exact ⟨rfl, rfl⟩

/-- Witness for the amended C6: the all-success provider completes, and
the temp directory is removed while the final output survives. -/
theorem cleanup_only_on_success_witness :
    (runQ3 allOkProvider 500).fs.shapeDir = false ∧
    (runQ3 allOkProvider 500).fs.final = true :=
  cleanup_only_on_success allOkProvider 500 rfl

/-- question3.py main (lines 97-115): raise FileNotFoundError when the
CSV folder is missing, ValueError when no facility rows were loaded, and
otherwise run three_or_above_facilities with radius 500 — the only
input validation the program performs. -/
def mainQ3 {γ : Type*} (folderExists : Bool) (rows : List γ) (p : Provider) :
    Except PyExc RunOut :=
  if folderExists = false then
    Except.error (PyExc.fileNotFound "CSV folder './csv_data/' not found.")
  else if rows.isEmpty then
    Except.error (PyExc.valueError "No facility data loaded from CSV files.")
  else
    match (runQ3 p 500).result with
    | Except.error e => Except.error e
    | Except.ok _ => Except.ok (runQ3 p 500)

/-- C7 counterexample: with a non-positive buffer radius the run does not
fail fast: the Buffer_analysis call is performed with that radius as the
very first operation, every combination task is still dispatched, and
(on a provider that accepts the call) the run even completes without any
input-error report. -/
theorem no_fail_fast_on_nonpositive_radius :
    (runQ3 allOkProvider (-1)).trace.head? = some (Op.bufferOp (-1)) ∧
    Op.dispatchOp 0 ["Badminton Courts", "Basketball Courts", "Country Parks"]
      ∈ (runQ3 allOkProvider (-1)).trace ∧
    (runQ3 allOkProvider (-1)).result = Except.ok () :=
  ⟨rfl, by decide, rfl⟩

/-- C7 as amended: the only fail-fast input checks are main's CSV-folder
existence and non-empty-data checks; the buffer radius (and the
threshold K, which is hard-coded) is never validated — for every radius,
including non-positive ones, the run's first action is the provider
buffer call with that radius. -/
theorem input_validation_scope {γ : Type*} (rows : List γ) (p : Provider) (radius : Rat)
    (hrows : rows ≠ []) :
    mainQ3 false rows p
      = Except.error (PyExc.fileNotFound "CSV folder './csv_data/' not found.") ∧
    mainQ3 true ([] : List γ) p
      = Except.error (PyExc.valueError "No facility data loaded from CSV files.") ∧
    (mainQ3 true rows p).isOk = (runQ3 p 500).result.isOk ∧
    (runQ3 p radius).trace.head? = some (Op.bufferOp radius) := by
  refine ⟨rfl, rfl, ?_, runQ3_trace_head p radius⟩
  rw [mainQ3]
  simp only [List.isEmpty_iff, hrows]
  rcases hres : (runQ3 p 500).result with e | u <;>
    simp [hres, Except.isOk, Except.toBool]

/-- Witness for the amended C7 at a concrete non-positive radius. -/
theorem input_validation_scope_witness :
    mainQ3 false [0] allOkProvider
      = Except.error (PyExc.fileNotFound "CSV folder './csv_data/' not found.") ∧
    mainQ3 true ([] : List Nat) allOkProvider
      = Except.error (PyExc.valueError "No facility data loaded from CSV files.") ∧
    (mainQ3 true [0] allOkProvider).isOk = (runQ3 allOkProvider 500).result.isOk ∧
    (runQ3 allOkProvider (-5)).trace.head? = some (Op.bufferOp (-5)) :=
  input_validation_scope [0] allOkProvider (-5) (by decide)

/-- A filesystem on which the Badminton Courts layer shapefile is absent,
as after a failed or skipped layer creation for that category. -/
def missingBadmintonFS : String → Bool :=
  fun path => path != layerPath "Badminton Courts"

/-- A provider whose per-category layer creation raises. -/
def failingMakeLayerProvider : Provider :=
  { allOkProvider with
    makeLayer := fun _ => Except.error (PyExc.executeError "select failed") }

/-- C4 counterexample: the scheduler of lines 54-58 dispatches the subset
containing the empty/excluded category "Badminton Courts" instead of
skipping it (it consults no buffer-set information at all), and the
worker reacting to that category's missing layer raises an
AssertionError instead of logging a skip. -/
theorem empty_category_not_skipped :
    (0, ["Badminton Courts", "Basketball Courts", "Country Parks"]) ∈ q3TaskList ∧
    (process_combination missingBadmintonFS intersectAlwaysOk 0
        ["Badminton Courts", "Basketball Courts", "Country Parks"]).2
      = Except.error (PyExc.assertionError (layerPath "Badminton Courts")) :=
  ⟨by decide, rfl⟩

theorem runSteps_second_error (st : List Op × FS)
    (s₁ s₂ : Op × (FS → FS) × Except PyExc Unit)
    (rest : List (Op × (FS → FS) × Except PyExc Unit)) (e : PyExc)
    (h₁ : s₁.2.2 = Except.ok ()) (h₂ : s₂.2.2 = Except.error e) :
    (runSteps st (s₁ :: s₂ :: rest)).2 = Except.error e := by
  rw [runSteps]
  simp only [h₁]
  rw [runSteps]
  simp [h₂]

/-- C4 as amended: there is no per-category failure recovery anywhere:
the scheduler dispatches every K-subset of the category list
unconditionally (its dispatched combinations are exactly all K-element
sublists, with no buffer-set check); a worker handed a subset whose
member layer file is missing raises an AssertionError rather than
skipping; and an error while creating a category layer propagates and
aborts the whole run rather than excluding that category. -/
theorem no_category_exclusion {α : Type*} (k : Nat) (cats : List α)
    (fileExists : String → Bool)
    (intersect : List String → String → Except PyExc Unit)
    (i : Nat) (comb : List String) (t : String)
    (ht : t ∈ comb) (hmiss : fileExists (layerPath t) = false)
    (p : Provider) (radius : Rat) (e : PyExc)
    (hbuf : p.buffer radius = Except.ok ())
    (hml : p.makeLayer "Badminton Courts" = Except.error e) :
    (scheduleTasks k cats).map Prod.snd = combinations k cats ∧
    (∃ u ∈ comb, fileExists (layerPath u) = false ∧
      (process_combination fileExists intersect i comb).2
        = Except.error (PyExc.assertionError (layerPath u))) ∧
    (runQ3 p radius).result = Except.error e := by
  refine ⟨List.enum_map_snd _, ?_, ?_⟩
  · have hsome : (comb.find? fun s => !fileExists (layerPath s)).isSome = true := by
      apply List.find?_isSome.mpr
      exact ⟨t, ht, by simp [hmiss]⟩
    obtain ⟨u, hu⟩ := Option.isSome_iff_exists.mp hsome
    refine ⟨u, List.mem_of_find?_eq_some hu, ?_, ?_⟩
    · have := List.find?_some hu
      simpa using this
    · simp only [process_combination, hu]
  · exact runSteps_second_error ([], initFS)
      (Op.bufferOp radius, id, p.buffer radius)
      (Op.makeLayerOp "Badminton Courts",
        fun fs => { fs with shapeDir := true }, p.makeLayer "Badminton Courts")
      _ e hbuf hml

/-- Witness for the amended C4 at concrete inputs: the full category
list with K = 3, a filesystem missing the Badminton Courts layer, and a
provider whose layer creation fails. -/
theorem no_category_exclusion_witness :
    (scheduleTasks 3 FacilityTypes).map Prod.snd = combinations 3 FacilityTypes ∧
    (∃ u ∈ ["Badminton Courts", "Basketball Courts", "Country Parks"],
      missingBadmintonFS (layerPath u) = false ∧
      (process_combination missingBadmintonFS intersectAlwaysOk 7
          ["Badminton Courts", "Basketball Courts", "Country Parks"]).2
        = Except.error (PyExc.assertionError (layerPath u))) ∧
    (runQ3 failingMakeLayerProvider 500).result
      = Except.error (PyExc.executeError "select failed") :=
  no_category_exclusion 3 FacilityTypes missingBadmintonFS intersectAlwaysOk 7
    ["Badminton Courts", "Basketball Courts", "Country Parks"] "Badminton Courts"
    (by decide) (by decide) failingMakeLayerProvider 500
    (PyExc.executeError "select failed") rfl rfl

/-- core.py check_na_or_empty: empty strings and the literal "N.A." map
to the default (None at both call sites), everything else is kept. -/
def check_na_or_empty (s : String) (default : Option String) : Option String :=
  if s = "" ∨ s = "N.A." then default else some s

theorem check_na_or_empty_spec (s : String) :
    (check_na_or_empty s none = none ↔ (s = "" ∨ s = "N.A.")) ∧
    (s ≠ "" → s ≠ "N.A." → check_na_or_empty s none = some s) := by
  rw [check_na_or_empty]
  split
  · next h =>
    refine ⟨by simp [h], fun h1 h2 => ?_⟩
    rcases h with h | h
    · exact absurd h h1
    · exact absurd h h2
  · next h =>
    push_neg at h
    simp [h.1, h.2]

/-- core.py SportFacility, its numeric fields parameterized over the
result type of Python float(). -/
structure SportFacility (F : Type) where
  gmid : String
  dataset : String
  fac_name : String
  addr : Option String
  district : Option String
  northing : F
  easting : F
  lat : F
  lon : F

/-- core.py SportFacility.from_csv_row: columns 0-2 verbatim, columns 3
and 4 through check_na_or_empty with default None, columns 5-8 through
float() in the order northing, easting, lat, lon.  A row with fewer than
9 columns raises (IndexError), modelled as none. -/
def SportFacility.from_csv_row {F : Type} (pf : String → F) (row : List String) :
    Option (SportFacility F) :=
  match row with
  | r0 :: r1 :: r2 :: r3 :: r4 :: r5 :: r6 :: r7 :: r8 :: _ =>
    some { gmid := r0, dataset := r1, fac_name := r2,
           addr := check_na_or_empty r3 none,
           district := check_na_or_empty r4 none,
           northing := pf r5, easting := pf r6, lat := pf r7, lon := pf r8 }
  | _ => none

/-- C10: for every CSV row with at least nine columns, the facility
record keeps columns 0-2 verbatim, its addr (resp. district) field is
None exactly when column 3 (resp. 4) is empty or the literal "N.A." and
is the verbatim string otherwise, and columns 5-8 are parsed by float()
into northing, easting, lat, lon in that order. -/
theorem from_csv_row_fields {F : Type} (pf : String → F)
    (r0 r1 r2 r3 r4 r5 r6 r7 r8 : String) (rest : List String) :
    ∃ fac : SportFacility F,
      SportFacility.from_csv_row pf
          (r0 :: r1 :: r2 :: r3 :: r4 :: r5 :: r6 :: r7 :: r8 :: rest) = some fac ∧
      fac.gmid = r0 ∧ fac.dataset = r1 ∧ fac.fac_name = r2 ∧
      (fac.addr = none ↔ (r3 = "" ∨ r3 = "N.A.")) ∧
      (r3 ≠ "" → r3 ≠ "N.A." → fac.addr = some r3) ∧
      (fac.district = none ↔ (r4 = "" ∨ r4 = "N.A.")) ∧
      (r4 ≠ "" → r4 ≠ "N.A." → fac.district = some r4) ∧
      fac.northing = pf r5 ∧ fac.easting = pf r6 ∧ fac.lat = pf r7 ∧ fac.lon = pf r8 :=
  ⟨_, rfl, rfl, rfl, rfl, (check_na_or_empty_spec r3).1, (check_na_or_empty_spec r3).2,
    (check_na_or_empty_spec r4).1, (check_na_or_empty_spec r4).2, rfl, rfl, rfl, rfl⟩

/-- Witness for C10 on a concrete row: an address of "N.A." becomes None
and a real district string is preserved verbatim. -/
theorem from_csv_row_fields_witness :
    ∃ fac : SportFacility String,
      SportFacility.from_csv_row (fun s => s)
          ["GM1", "Badminton Courts", "Shek Kip Mei Park", "N.A.", "Sham Shui Po",
            "820000.1", "835000.2", "22.33", "114.16"] = some fac ∧
      fac.gmid = "GM1" ∧ fac.dataset = "Badminton Courts" ∧
      fac.fac_name = "Shek Kip Mei Park" ∧
      (fac.addr = none ↔ ("N.A." = "" ∨ ("N.A." : String) = "N.A.")) ∧
      (("N.A." : String) ≠ "" → ("N.A." : String) ≠ "N.A." → fac.addr = some "N.A.") ∧
      (fac.district = none ↔ ("Sham Shui Po" = "" ∨ ("Sham Shui Po" : String) = "N.A.")) ∧
      (("Sham Shui Po" : String) ≠ "" → ("Sham Shui Po" : String) ≠ "N.A." →
        fac.district = some "Sham Shui Po") ∧
      fac.northing = "820000.1" ∧ fac.easting = "835000.2" ∧
      fac.lat = "22.33" ∧ fac.lon = "114.16" :=
  from_csv_row_fields (fun s => s) "GM1" "Badminton Courts" "Shek Kip Mei Park"
    "N.A." "Sham Shui Po" "820000.1" "835000.2" "22.33" "114.16" []

end GIS
